import Mathlib

/-!
Verification of the sequencer's pre-execution validation core against its
specification.  The development shallowly embeds three source files:

* `src/src/transaction.rs` — the versioned transaction data model
  (Declare / Deploy / DeployAccount / Invoke / L1Handler) and its
  version-polymorphic accessors (`max_fee`, `nonce`, `version`);
* `src/crates/native_blockifier/src/py_validator.rs` — the `PyValidator`
  lifecycle (`setup_validation_context` / `teardown_validation_context` /
  `close`), the skip-validation heuristic
  (`skip_validate_due_to_unprocessed_deploy_account`), the staged
  orchestrator `perform_validations`, and `create_for_testing`;
* `src/crates/starknet_batcher_types/src/communication.rs` — the batcher
  client request/response pairing and its two-channel error type.

Machine integers (`u64`, `u128`, field elements) appear here as `Nat`:
every operation modelled is a projection or a comparison, never an
arithmetic operation that could overflow.  External collaborators (the
state reader, the VM execution engine, the wire transport) are abstracted
as explicit function parameters returning `Except`; the code embedded from
the source is the logic that combines them.  Stateful Rust methods become
explicit state passing (`σ → Except ε σ`), and the orchestrator also
returns the list of stages it invoked, so that properties of the form
"stage X is never run" are statements about a computable value.
-/

/-! ## Base field and newtype wrappers (from `starknet_api`) -/

/-- A Starknet field element, modelled by its canonical numeric value.
Only equality and order comparisons on it are embedded. -/
abbrev StarkFelt := Nat

/-- A Starknet hash (`StarkHash = StarkFelt` in the source). -/
abbrev StarkHash := StarkFelt

/-- `Nonce(pub StarkFelt)` — per-account monotone counter. -/
structure Nonce where
  val : StarkFelt
deriving DecidableEq

instance : LE Nonce := ⟨fun a b => a.val ≤ b.val⟩

instance (a b : Nonce) : Decidable (a ≤ b) :=
  inferInstanceAs (Decidable (a.val ≤ b.val))

/-- `Fee(pub u128)`. -/
structure Fee where
  val : Nat
deriving DecidableEq

/-- `Tip(pub u64)`. -/
structure Tip where
  val : Nat
deriving DecidableEq

/-- `ClassHash` (from `crate::core`, a `StarkHash` newtype). -/
structure ClassHash where
  val : StarkHash
deriving DecidableEq

/-- `CompiledClassHash` (from `crate::core`). -/
structure CompiledClassHash where
  val : StarkHash
deriving DecidableEq

/-- `ContractAddress` (from `crate::core`). -/
structure ContractAddress where
  val : StarkFelt
deriving DecidableEq

/-- `EntryPointSelector` (from `crate::core`). -/
structure EntryPointSelector where
  val : StarkFelt
deriving DecidableEq

/-- `ContractAddressSalt(pub StarkHash)`. -/
structure ContractAddressSalt where
  val : StarkHash
deriving DecidableEq

/-- `TransactionSignature(pub Vec<StarkFelt>)`. -/
structure TransactionSignature where
  felts : List StarkFelt
deriving DecidableEq

/-- `TransactionVersion(pub StarkFelt)`. -/
structure TransactionVersion where
  val : StarkFelt
deriving DecidableEq

/-- `Calldata(pub Arc<Vec<StarkFelt>>)`. -/
structure Calldata where
  felts : List StarkFelt
deriving DecidableEq

/-- `TransactionHash(pub StarkHash)`. -/
structure TransactionHash where
  val : StarkHash
deriving DecidableEq

/-! ## Transaction model (from `src/src/transaction.rs`) -/

/-- `StorageDomain` — data-availability mode of a V3 field. -/
inductive StorageDomain where
  | OnChain
  | OffChain
deriving DecidableEq

/-- `Resource` — a V3 resource kind. -/
inductive Resource where
  | L1Gas
  | L2Gas
deriving DecidableEq

/-- `ResourceBounds` — max amount (`u64`) and max price per unit (`u128`). -/
structure ResourceBounds where
  max_amount : Nat
  max_price_per_unit : Nat
deriving DecidableEq

/-- `AccountParams` — the legacy fee-model account fields
(`max_fee`, `signature`, `nonce`). -/
structure AccountParams where
  max_fee : Fee
  signature : TransactionSignature
  nonce : Nonce
deriving DecidableEq

/-- `TransactionParamsV3` — the V3 resource-bounds/tip fee-model fields. -/
structure TransactionParamsV3 where
  signature : TransactionSignature
  nonce : Nonce
  nonce_da_mode : StorageDomain
  fee_da_mode : StorageDomain
  resource_bounds : ResourceBounds
  tip : Tip
deriving DecidableEq

/-- `DeclareTransactionV0V1` — a declare V0 or V1 transaction
(same schema but different version). -/
structure DeclareTransactionV0V1 where
  account_params : AccountParams
  class_hash : ClassHash
  sender_address : ContractAddress
deriving DecidableEq

/-- `DeclareTransactionV2`. -/
structure DeclareTransactionV2 where
  account_params : AccountParams
  class_hash : ClassHash
  compiled_class_hash : CompiledClassHash
  sender_address : ContractAddress
deriving DecidableEq

/-- `DeclareTransactionV3`. -/
structure DeclareTransactionV3 where
  transaction_params : TransactionParamsV3
  class_hash : ClassHash
  compiled_class_hash : CompiledClassHash
  sender_address : ContractAddress
deriving DecidableEq

/-- `DeclareTransaction` — the versioned declare union. -/
inductive DeclareTransaction where
  | V0 (tx : DeclareTransactionV0V1)
  | V1 (tx : DeclareTransactionV0V1)
  | V2 (tx : DeclareTransactionV2)
  | V3 (tx : DeclareTransactionV3)
deriving DecidableEq

/-- `DeclareTransaction::max_fee` (transaction.rs lines 148–155). -/
def DeclareTransaction.max_fee : DeclareTransaction → Option Fee
  | .V0 tx => some tx.account_params.max_fee
  | .V1 tx => some tx.account_params.max_fee
  | .V2 tx => some tx.account_params.max_fee
  | .V3 _ => none

/-- `DeclareTransaction::signature` (transaction.rs lines 156–163). -/
def DeclareTransaction.signature : DeclareTransaction → TransactionSignature
  | .V0 tx => tx.account_params.signature
  | .V1 tx => tx.account_params.signature
  | .V2 tx => tx.account_params.signature
  | .V3 tx => tx.transaction_params.signature

/-- `DeclareTransaction::nonce` (transaction.rs lines 164–171). -/
def DeclareTransaction.nonce : DeclareTransaction → Nonce
  | .V0 tx => tx.account_params.nonce
  | .V1 tx => tx.account_params.nonce
  | .V2 tx => tx.account_params.nonce
  | .V3 tx => tx.transaction_params.nonce

/-- `DeclareTransaction::version` (transaction.rs lines 180–187). -/
def DeclareTransaction.version : DeclareTransaction → TransactionVersion
  | .V0 _ => TransactionVersion.mk 0
  | .V1 _ => TransactionVersion.mk 1
  | .V2 _ => TransactionVersion.mk 2
  | .V3 _ => TransactionVersion.mk 3

/-- `DeployAccountTransactionV1`. -/
structure DeployAccountTransactionV1 where
  account_params : AccountParams
  class_hash : ClassHash
  contract_address_salt : ContractAddressSalt
  constructor_calldata : Calldata
deriving DecidableEq

/-- `DeployAccountTransactionV3`. -/
structure DeployAccountTransactionV3 where
  transaction_params : TransactionParamsV3
  class_hash : ClassHash
  contract_address_salt : ContractAddressSalt
  constructor_calldata : Calldata
deriving DecidableEq

/-- `DeployAccountTransaction` — the versioned deploy-account union. -/
inductive DeployAccountTransaction where
  | V1 (tx : DeployAccountTransactionV1)
  | V3 (tx : DeployAccountTransactionV3)
deriving DecidableEq

/-- `DeployAccountTransaction::max_fee` (transaction.rs lines 235–240). -/
def DeployAccountTransaction.max_fee : DeployAccountTransaction → Option Fee
  | .V1 tx => some tx.account_params.max_fee
  | .V3 _ => none

/-- `DeployAccountTransaction::nonce` (transaction.rs lines 247–252). -/
def DeployAccountTransaction.nonce : DeployAccountTransaction → Nonce
  | .V1 tx => tx.account_params.nonce
  | .V3 tx => tx.transaction_params.nonce

/-- `DeployAccountTransaction::version` (transaction.rs lines 253–258). -/
def DeployAccountTransaction.version : DeployAccountTransaction → TransactionVersion
  | .V1 _ => TransactionVersion.mk 1
  | .V3 _ => TransactionVersion.mk 3

/-- `DeployTransaction` (transaction.rs lines 262–268).  Note: the version
is a stored field of the data, there is no versioned variant tag. -/
structure DeployTransaction where
  version : TransactionVersion
  class_hash : ClassHash
  contract_address_salt : ContractAddressSalt
  constructor_calldata : Calldata
deriving DecidableEq

/-- `InvokeTransactionV0` — legacy fee model, no nonce field. -/
structure InvokeTransactionV0 where
  max_fee : Fee
  signature : TransactionSignature
  contract_address : ContractAddress
  entry_point_selector : EntryPointSelector
  calldata : Calldata
deriving DecidableEq

/-- `InvokeTransactionV1`. -/
structure InvokeTransactionV1 where
  account_params : AccountParams
  sender_address : ContractAddress
  calldata : Calldata
deriving DecidableEq

/-- `InvokeTransactionV3`. -/
structure InvokeTransactionV3 where
  transaction_params : TransactionParamsV3
  sender_address : ContractAddress
  calldata : Calldata
deriving DecidableEq

/-- `InvokeTransaction` — the versioned invoke union. -/
inductive InvokeTransaction where
  | V0 (tx : InvokeTransactionV0)
  | V1 (tx : InvokeTransactionV1)
  | V3 (tx : InvokeTransactionV3)
deriving DecidableEq

/-- `InvokeTransaction::max_fee` (transaction.rs lines 320–326). -/
def InvokeTransaction.max_fee : InvokeTransaction → Option Fee
  | .V0 tx => some tx.max_fee
  | .V1 tx => some tx.account_params.max_fee
  | .V3 _ => none

/-- `InvokeTransaction::nonce` (transaction.rs lines 334–340): the V0
variant has no nonce. -/
def InvokeTransaction.nonce : InvokeTransaction → Option Nonce
  | .V0 _ => none
  | .V1 tx => some tx.account_params.nonce
  | .V3 tx => some tx.transaction_params.nonce

/-- `InvokeTransaction::version` (transaction.rs lines 348–354). -/
def InvokeTransaction.version : InvokeTransaction → TransactionVersion
  | .V0 _ => TransactionVersion.mk 0
  | .V1 _ => TransactionVersion.mk 1
  | .V3 _ => TransactionVersion.mk 3

/-- `L1HandlerTransaction` (transaction.rs lines 358–365).  Note: both the
version and the nonce are stored fields. -/
structure L1HandlerTransaction where
  version : TransactionVersion
  nonce : Nonce
  contract_address : ContractAddress
  entry_point_selector : EntryPointSelector
  calldata : Calldata
deriving DecidableEq

/-- `Transaction` — the top-level transaction union (transaction.rs
lines 17–28). -/
inductive Transaction where
  | Declare (tx : DeclareTransaction)
  | Deploy (tx : DeployTransaction)
  | DeployAccount (tx : DeployAccountTransaction)
  | Invoke (tx : InvokeTransaction)
  | L1Handler (tx : L1HandlerTransaction)
deriving DecidableEq

/-- Modelled from the spec: the top-level version-polymorphic `nonce()`
dispatch over the `Transaction` union is not among the provided source
files (only the per-family accessors are).  Following the spec: "for any
transaction, `nonce()` returns the account nonce or none for nonce-less
variants (Invoke V0, Deploy, L1Handler)".  The Declare, DeployAccount and
Invoke arms delegate to the per-family accessors embedded from the
source. -/
def Transaction.nonce : Transaction → Option Nonce
  | .Declare tx => some tx.nonce
  | .Deploy _ => none
  | .DeployAccount tx => some tx.nonce
  | .Invoke tx => tx.nonce
  | .L1Handler _ => none

/-! ## Validator model (from `src/crates/native_blockifier/src/py_validator.rs`)

The blockifier's `AccountTransaction` union (Declare / DeployAccount /
Invoke) is the input type of `perform_validations`; only its variant tag
and its derived `AccountTransactionContext` (sender address, nonce) are
inspected by the embedded code, so the payload is not repeated here. -/

/-- The variant tag of the blockifier's `AccountTransaction` union. -/
inductive AccountTransactionKind where
  | Declare
  | DeployAccount
  | Invoke
deriving DecidableEq

/-- The part of the blockifier's `AccountTransactionContext` that the
embedded validator code reads: `sender_address()` and `nonce()`. -/
structure AccountTransactionContext where
  sender_address : ContractAddress
  nonce : Nonce
deriving DecidableEq

/-- An account transaction as `perform_validations` sees it: its variant
tag and its `get_account_tx_context()` view. -/
structure AccountTransaction where
  kind : AccountTransactionKind
  account_tx_context : AccountTransactionContext
deriving DecidableEq

/-- The operations of the external transaction executor and blockifier
engine that `PyValidator` calls (state-reader reads, full execution, the
pre-validation stage, the `validate` call and the post-validation report).
They are external collaborators of the embedded code: each is an explicit
state-passing function returning `Except`.  `σ` is the executor state,
`ε` the error type, `ρ` the execution-info payload, `κ` the `ActualCost`
payload. -/
structure TransactionExecutorOps (σ ε ρ κ : Type) where
  /-- `state.get_nonce_at(address)` on the executor's state reader. -/
  get_nonce_at : σ → ContractAddress → Except ε Nonce
  /-- `self.tx_executor.execute(tx, ..)` — full execution of a
  transaction, mutating the state. -/
  execute : σ → AccountTransaction → Except ε (σ × ρ)
  /-- `account_tx.perform_pre_validation_stage(state, ctx, block_context,
  charge_fee, strict_nonce_check)` — the blockifier's pre-validation
  stage, mutating the state (it may increment the stored nonce). -/
  perform_pre_validation_stage :
    σ → AccountTransaction → Bool → Bool → Except ε σ
  /-- `self.tx_executor.validate(account_tx, remaining_gas)` — the
  account's validate-program call, mutating the state. -/
  validate : σ → AccountTransaction → Nat → Except ε (σ × κ)
  /-- `PostValidationReport::verify(block_context, ctx, actual_cost)`. -/
  perform_post_validation_stage :
    AccountTransactionContext → κ → Except ε Unit
  /-- `Transaction::initial_gas()` — the engine's initial gas constant. -/
  initial_gas : Nat

/-- `PyValidator::perform_pre_validation_stage` (py_validator.rs lines
293–311): runs the blockifier pre-validation stage with
`strict_nonce_check = false` and `charge_fee = true` hardcoded. -/
def PyValidator.perform_pre_validation_stage {σ ε ρ κ : Type}
    (ops : TransactionExecutorOps σ ε ρ κ) (st : σ)
    (account_tx : AccountTransaction) : Except ε σ :=
  let strict_nonce_check := false
  let charge_fee := true
  ops.perform_pre_validation_stage st account_tx charge_fee strict_nonce_check

/-- `PyValidator::skip_validate_due_to_unprocessed_deploy_account`
(py_validator.rs lines 316–335): reads the sender's current on-chain
nonce, then decides whether the `__validate__` call may be skipped:
a deploy-account hint is present and the on-chain nonce is zero, the
transaction's own nonce is at least one, and at most the configured
`max_nonce_for_validation_skip`. -/
def skip_validate_due_to_unprocessed_deploy_account {σ ε ρ κ : Type}
    (ops : TransactionExecutorOps σ ε ρ κ) (st : σ)
    (max_nonce_for_validation_skip : Nonce)
    (account_tx_context : AccountTransactionContext)
    (deploy_account_tx_hash : Option TransactionHash) : Except ε Bool :=
  match ops.get_nonce_at st account_tx_context.sender_address with
  | .error e => .error e
  | .ok nonce =>
    let tx_nonce := account_tx_context.nonce
    let deploy_account_not_processed :=
      deploy_account_tx_hash.isSome && decide (nonce = Nonce.mk 0)
    let is_post_deploy_nonce := decide (Nonce.mk 1 ≤ tx_nonce)
    let nonce_small_enough_to_qualify_for_validation_skip :=
      decide (tx_nonce ≤ max_nonce_for_validation_skip)
    let skip_validate := deploy_account_not_processed
      && is_post_deploy_nonce
      && nonce_small_enough_to_qualify_for_validation_skip
    .ok skip_validate

/-- The stages `perform_validations` can invoke, in the order the
orchestrator reaches them. -/
inductive ValidationStage where
  | executeStage
  | deployAccountSkipCheck
  | preValidationStage
  | validateCallStage
  | postValidationStage
deriving DecidableEq

/-- `PyValidator::perform_validations` (py_validator.rs lines 193–235).
A DeployAccount transaction is fully executed instead of validated (the
constructor must run before `__validate_deploy__`); every other account
transaction first has the skip decision computed (before pre-validation,
which increments the nonce), then pre-validation runs unconditionally,
and only when the skip decision is false do the `__validate__` call and
the post-validation stage run.  Alongside the source's `Result<(), _>`
the embedding returns the list of stages invoked, so that "stage X never
runs" is a statement about a computable value; a stage that was entered
and failed is in the list. -/
def perform_validations {σ ε ρ κ : Type}
    (ops : TransactionExecutorOps σ ε ρ κ)
    (max_nonce_for_validation_skip : Nonce) (st : σ)
    (account_tx : AccountTransaction)
    (deploy_account_tx_hash : Option TransactionHash) :
    Except ε Unit × List ValidationStage :=
  let account_tx_context := account_tx.account_tx_context
  if account_tx.kind = AccountTransactionKind.DeployAccount then
    match ops.execute st account_tx with
    | .error e => (.error e, [ValidationStage.executeStage])
    | .ok _ => (.ok (), [ValidationStage.executeStage])
  else
    match skip_validate_due_to_unprocessed_deploy_account ops st
        max_nonce_for_validation_skip account_tx_context
        deploy_account_tx_hash with
    | .error e => (.error e, [ValidationStage.deployAccountSkipCheck])
    | .ok skip_validate =>
      match PyValidator.perform_pre_validation_stage ops st account_tx with
      | .error e =>
        (.error e,
          [ValidationStage.deployAccountSkipCheck,
           ValidationStage.preValidationStage])
      | .ok st1 =>
        if skip_validate then
          (.ok (),
            [ValidationStage.deployAccountSkipCheck,
             ValidationStage.preValidationStage])
        else
          match ops.validate st1 account_tx ops.initial_gas with
          | .error e =>
            (.error e,
              [ValidationStage.deployAccountSkipCheck,
               ValidationStage.preValidationStage,
               ValidationStage.validateCallStage])
          | .ok (_st2, actual_cost) =>
            match ops.perform_post_validation_stage
                account_tx_context actual_cost with
            | .error e =>
              (.error e,
                [ValidationStage.deployAccountSkipCheck,
                 ValidationStage.preValidationStage,
                 ValidationStage.validateCallStage,
                 ValidationStage.postValidationStage])
            | .ok _ =>
              (.ok (),
                [ValidationStage.deployAccountSkipCheck,
                 ValidationStage.preValidationStage,
                 ValidationStage.validateCallStage,
                 ValidationStage.postValidationStage])

/-! ## Validator lifecycle (py_validator.rs lines 62–93)

The lifecycle side of `PyValidator` keeps at most one live transaction
executor: `tx_executor` is an `Option`, `setup_validation_context`
asserts that it is `None` before creating a new one, and
`teardown_validation_context` / `close` reset it to `None`. -/

/-- The lifecycle state of the validator: `tx_executor = none` is the
Uninitialized state, `some` is the Live state.  `τ` is the executor. -/
structure PyValidatorLifecycle (τ : Type) where
  tx_executor : Option τ
deriving DecidableEq

/-- The outcome of `setup_validation_context`: the Rust `assert!` is a
hard assertion failure (a panic), kept distinct from the recoverable
`NativeBlockifierResult` error of `TransactionExecutor::new(..)?`. -/
inductive SetupOutcome (ε τ : Type) where
  | assertionFailure
  | creationFailed (e : ε)
  | ok (v : PyValidatorLifecycle τ)
deriving DecidableEq

/-- `PyValidator::setup_validation_context` (py_validator.rs lines
62–84): asserts that the executor was torn down, then creates a new one
(`executor_new` stands for the external
`TransactionExecutor::new(reader, config, block_info, depth, cache)`
call, whose failure the `?` operator propagates). -/
def setup_validation_context {ε τ : Type} (executor_new : Except ε τ)
    (v : PyValidatorLifecycle τ) : SetupOutcome ε τ :=
  if v.tx_executor.isNone then
    match executor_new with
    | .error e => SetupOutcome.creationFailed e
    | .ok ex => SetupOutcome.ok { tx_executor := some ex }
  else
    SetupOutcome.assertionFailure

/-- `PyValidator::teardown_validation_context` (py_validator.rs lines
86–88): `self.tx_executor = None`. -/
def teardown_validation_context {τ : Type}
    (_v : PyValidatorLifecycle τ) : PyValidatorLifecycle τ :=
  { tx_executor := none }

/-- `PyValidator::close` (py_validator.rs lines 90–93): logs and calls
`teardown_validation_context`. -/
def close {τ : Type} (v : PyValidatorLifecycle τ) : PyValidatorLifecycle τ :=
  teardown_validation_context v

/-! ## Validator construction (py_validator.rs lines 246–266) -/

/-- The `PyValidator` struct's stored fields (py_validator.rs lines
24–29).  `γ` is the general-config payload, `τ` the executor. -/
structure PyValidatorStruct (γ τ : Type) where
  general_config : γ
  max_recursion_depth : Nat
  max_nonce_for_validation_skip : Nonce
  tx_executor : τ
deriving DecidableEq

/-- `PyValidator::create_for_testing` (py_validator.rs lines 246–266):
forwards its `max_recursion_depth` argument to the external
`TransactionExecutor::new` call (`executor_new`), but stores the
constants `50` and `Nonce(StarkFelt::ONE)` in the returned struct.
`ρr` is the state-reader proxy, `β` the block info. -/
def create_for_testing {γ ρr β ε τ : Type}
    (executor_new : ρr → γ → β → Nat → Except ε τ)
    (general_config : γ) (state_reader_proxy : ρr)
    (next_block_info : β) (max_recursion_depth : Nat) :
    Except ε (PyValidatorStruct γ τ) :=
  match executor_new state_reader_proxy general_config next_block_info
      max_recursion_depth with
  | .error e => .error e
  | .ok tx_executor =>
    .ok { general_config := general_config
          max_recursion_depth := 50
          max_nonce_for_validation_skip := Nonce.mk 1
          tx_executor := tx_executor }

/-! ## Batcher communication
(from `src/crates/starknet_batcher_types/src/communication.rs`)

The request/response payload types live in `batcher_types.rs` and the
infra crate, outside the provided source files; each is modelled as an
abstract one-field wrapper, since the embedded code only moves them
around.  The transport's `send` is an external collaborator: a function
from a request to `Except ClientError BatcherResponse`. -/

/-- Payload of `BatcherRequest::ProposeBlock` (abstract). -/
structure ProposeBlockInput where
  val : Nat
deriving DecidableEq

/-- Payload of `BatcherRequest::GetProposalContent` (abstract). -/
structure GetProposalContentInput where
  val : Nat
deriving DecidableEq

/-- Payload of `BatcherRequest::ValidateBlock` (abstract). -/
structure ValidateBlockInput where
  val : Nat
deriving DecidableEq

/-- Payload of `BatcherRequest::SendProposalContent` (abstract). -/
structure SendProposalContentInput where
  val : Nat
deriving DecidableEq

/-- Payload of `BatcherRequest::StartHeight` (abstract). -/
structure StartHeightInput where
  val : Nat
deriving DecidableEq

/-- Payload of `BatcherRequest::DecisionReached` (abstract). -/
structure DecisionReachedInput where
  val : Nat
deriving DecidableEq

/-- Payload of `BatcherRequest::AddSyncBlock` (abstract). -/
structure SyncBlock where
  val : Nat
deriving DecidableEq

/-- Success payload of `get_height` (abstract). -/
structure GetHeightResponse where
  val : Nat
deriving DecidableEq

/-- Success payload of `get_proposal_content` (abstract). -/
structure GetProposalContentResponse where
  val : Nat
deriving DecidableEq

/-- Success payload of `send_proposal_content` (abstract). -/
structure SendProposalContentResponse where
  val : Nat
deriving DecidableEq

/-- Success payload of `decision_reached` (abstract). -/
structure DecisionReachedResponse where
  val : Nat
deriving DecidableEq

/-- The batcher's application-level error (abstract payload). -/
structure BatcherError where
  val : Nat
deriving DecidableEq

/-- The infra transport error.  Modelled from the spec: the transport
layer's own failures, plus the mismatched-response case the client maps
to a transport error (the response's variant did not match the request's
operation kind). -/
inductive ClientError where
  | communicationFailure (code : Nat)
  | unexpectedResponse
deriving DecidableEq

/-- `BatcherResult<T> = Result<T, BatcherError>`. -/
abbrev BatcherResult (α : Type) := Except BatcherError α

/-- `BatcherRequest` (communication.rs lines 84–94): one variant per
operation kind. -/
inductive BatcherRequest where
  | ProposeBlock (i : ProposeBlockInput)
  | GetProposalContent (i : GetProposalContentInput)
  | ValidateBlock (i : ValidateBlockInput)
  | SendProposalContent (i : SendProposalContentInput)
  | StartHeight (i : StartHeightInput)
  | GetCurrentHeight
  | DecisionReached (i : DecisionReachedInput)
  | AddSyncBlock (s : SyncBlock)
deriving DecidableEq

/-- `BatcherResponse` (communication.rs lines 96–106): one variant per
operation kind, each carrying a `BatcherResult` of the typed success
payload. -/
inductive BatcherResponse where
  | ProposeBlock (r : BatcherResult Unit)
  | GetCurrentHeight (r : BatcherResult GetHeightResponse)
  | GetProposalContent (r : BatcherResult GetProposalContentResponse)
  | ValidateBlock (r : BatcherResult Unit)
  | SendProposalContent (r : BatcherResult SendProposalContentResponse)
  | StartHeight (r : BatcherResult Unit)
  | DecisionReached (r : BatcherResult DecisionReachedResponse)
  | AddSyncBlock (r : BatcherResult Unit)

/-- `BatcherClientError` (communication.rs lines 108–114): the two error
channels, transport (`ClientError`) and application (`BatcherError`),
kept as distinct variants. -/
inductive BatcherClientError where
  | ClientError (e : ClientError)
  | BatcherError (e : BatcherError)
deriving DecidableEq

/-- `BatcherClientResult<T> = Result<T, BatcherClientError>`. -/
abbrev BatcherClientResult (α : Type) := Except BatcherClientError α

/-- The transport: `ComponentClient::send`.  An external collaborator;
it either delivers a `BatcherResponse` or fails with a transport
`ClientError`. -/
abbrev BatcherSend := BatcherRequest → Except ClientError BatcherResponse

/-- `BatcherClient::propose_block` (communication.rs lines 121–125).
The match arms are the expansion of `handle_response_variants!`,
modelled from the spec: the macro's definition lives in
`papyrus_proc_macros`, outside the provided source files; per the spec,
each response carries a typed success payload or a typed error, and
transport failures are surfaced distinctly from application-level
errors. -/
def propose_block (send : BatcherSend) (input : ProposeBlockInput) :
    BatcherClientResult Unit :=
  let request := BatcherRequest.ProposeBlock input
  match send request with
  | .error e => .error (BatcherClientError.ClientError e)
  | .ok (BatcherResponse.ProposeBlock (.ok response)) => .ok response
  | .ok (BatcherResponse.ProposeBlock (.error e)) =>
    .error (BatcherClientError.BatcherError e)
  | .ok _ =>
    .error (BatcherClientError.ClientError ClientError.unexpectedResponse)

/-- `BatcherClient::get_proposal_content` (communication.rs lines
127–139); response handling modelled from the spec as in
`propose_block`. -/
def get_proposal_content (send : BatcherSend)
    (input : GetProposalContentInput) :
    BatcherClientResult GetProposalContentResponse :=
  let request := BatcherRequest.GetProposalContent input
  match send request with
  | .error e => .error (BatcherClientError.ClientError e)
  | .ok (BatcherResponse.GetProposalContent (.ok response)) => .ok response
  | .ok (BatcherResponse.GetProposalContent (.error e)) =>
    .error (BatcherClientError.BatcherError e)
  | .ok _ =>
    .error (BatcherClientError.ClientError ClientError.unexpectedResponse)

/-- `BatcherClient::validate_block` (communication.rs lines 141–145);
response handling modelled from the spec as in `propose_block`. -/
def validate_block (send : BatcherSend) (input : ValidateBlockInput) :
    BatcherClientResult Unit :=
  let request := BatcherRequest.ValidateBlock input
  match send request with
  | .error e => .error (BatcherClientError.ClientError e)
  | .ok (BatcherResponse.ValidateBlock (.ok response)) => .ok response
  | .ok (BatcherResponse.ValidateBlock (.error e)) =>
    .error (BatcherClientError.BatcherError e)
  | .ok _ =>
    .error (BatcherClientError.ClientError ClientError.unexpectedResponse)

/-- `BatcherClient::send_proposal_content` (communication.rs lines
147–159); response handling modelled from the spec as in
`propose_block`. -/
def send_proposal_content (send : BatcherSend)
    (input : SendProposalContentInput) :
    BatcherClientResult SendProposalContentResponse :=
  let request := BatcherRequest.SendProposalContent input
  match send request with
  | .error e => .error (BatcherClientError.ClientError e)
  | .ok (BatcherResponse.SendProposalContent (.ok response)) => .ok response
  | .ok (BatcherResponse.SendProposalContent (.error e)) =>
    .error (BatcherClientError.BatcherError e)
  | .ok _ =>
    .error (BatcherClientError.ClientError ClientError.unexpectedResponse)

/-- `BatcherClient::start_height` (communication.rs lines 161–165);
response handling modelled from the spec as in `propose_block`. -/
def start_height (send : BatcherSend) (input : StartHeightInput) :
    BatcherClientResult Unit :=
  let request := BatcherRequest.StartHeight input
  match send request with
  | .error e => .error (BatcherClientError.ClientError e)
  | .ok (BatcherResponse.StartHeight (.ok response)) => .ok response
  | .ok (BatcherResponse.StartHeight (.error e)) =>
    .error (BatcherClientError.BatcherError e)
  | .ok _ =>
    .error (BatcherClientError.ClientError ClientError.unexpectedResponse)

/-- `BatcherClient::get_height` (communication.rs lines 167–176): the
one request without a payload; response handling modelled from the spec
as in `propose_block`. -/
def get_height (send : BatcherSend) :
    BatcherClientResult GetHeightResponse :=
  let request := BatcherRequest.GetCurrentHeight
  match send request with
  | .error e => .error (BatcherClientError.ClientError e)
  | .ok (BatcherResponse.GetCurrentHeight (.ok response)) => .ok response
  | .ok (BatcherResponse.GetCurrentHeight (.error e)) =>
    .error (BatcherClientError.BatcherError e)
  | .ok _ =>
    .error (BatcherClientError.ClientError ClientError.unexpectedResponse)

/-- `BatcherClient::decision_reached` (communication.rs lines 178–190);
response handling modelled from the spec as in `propose_block`. -/
def decision_reached (send : BatcherSend) (input : DecisionReachedInput) :
    BatcherClientResult DecisionReachedResponse :=
  let request := BatcherRequest.DecisionReached input
  match send request with
  | .error e => .error (BatcherClientError.ClientError e)
  | .ok (BatcherResponse.DecisionReached (.ok response)) => .ok response
  | .ok (BatcherResponse.DecisionReached (.error e)) =>
    .error (BatcherClientError.BatcherError e)
  | .ok _ =>
    .error (BatcherClientError.ClientError ClientError.unexpectedResponse)

/-- `BatcherClient::add_sync_block` (communication.rs lines 192–196);
response handling modelled from the spec as in `propose_block`. -/
def add_sync_block (send : BatcherSend) (sync_block : SyncBlock) :
    BatcherClientResult Unit :=
  let request := BatcherRequest.AddSyncBlock sync_block
  match send request with
  | .error e => .error (BatcherClientError.ClientError e)
  | .ok (BatcherResponse.AddSyncBlock (.ok response)) => .ok response
  | .ok (BatcherResponse.AddSyncBlock (.error e)) =>
    .error (BatcherClientError.BatcherError e)
  | .ok _ =>
    .error (BatcherClientError.ClientError ClientError.unexpectedResponse)

/-! ## Concrete instances used to evaluate the definitions

Small executable instantiations of the abstract collaborators, used by
the witness theorems to evaluate the embedded code on concrete inputs.
The executor state is a `Nat` holding the sender's current on-chain
nonce; the error type is `Nat`. -/

/-- An executor whose every operation succeeds: the state is the
sender's on-chain nonce, and the pre-validation stage increments it. -/
def exOpsBase : TransactionExecutorOps Nat Nat Unit Unit where
  get_nonce_at := fun st _ => Except.ok (Nonce.mk st)
  execute := fun st _ => Except.ok (st, ())
  perform_pre_validation_stage := fun st _ _ _ => Except.ok (st + 1)
  validate := fun st _ _ => Except.ok (st, ())
  perform_post_validation_stage := fun _ _ => Except.ok ()
  initial_gas := 0

/-- `exOpsBase` with a failing `execute`. -/
def exOpsExecFail : TransactionExecutorOps Nat Nat Unit Unit :=
  { exOpsBase with execute := fun _ _ => Except.error 10 }

/-- `exOpsBase` with a failing state-reader nonce read. -/
def exOpsNonceFail : TransactionExecutorOps Nat Nat Unit Unit :=
  { exOpsBase with get_nonce_at := fun _ _ => Except.error 11 }

/-- `exOpsBase` with a failing pre-validation stage. -/
def exOpsPreFail : TransactionExecutorOps Nat Nat Unit Unit :=
  { exOpsBase with
      perform_pre_validation_stage := fun _ _ _ _ => Except.error 12 }

/-- `exOpsBase` with a failing validate call. -/
def exOpsValFail : TransactionExecutorOps Nat Nat Unit Unit :=
  { exOpsBase with validate := fun _ _ _ => Except.error 13 }

/-- `exOpsBase` with a failing post-validation stage. -/
def exOpsPostFail : TransactionExecutorOps Nat Nat Unit Unit :=
  { exOpsBase with
      perform_post_validation_stage := fun _ _ => Except.error 14 }

/-- A sample sender address. -/
def sampleSender : ContractAddress := ContractAddress.mk 5

/-- A sample account-transaction context with transaction nonce `n`. -/
def sampleCtx (n : Nat) : AccountTransactionContext :=
  AccountTransactionContext.mk sampleSender (Nonce.mk n)

/-- A sample invoke transaction with transaction nonce `n`. -/
def sampleInvokeTx (n : Nat) : AccountTransaction :=
  AccountTransaction.mk AccountTransactionKind.Invoke (sampleCtx n)

/-- A sample deploy-account transaction. -/
def sampleDeployAccountTx : AccountTransaction :=
  AccountTransaction.mk AccountTransactionKind.DeployAccount (sampleCtx 0)

/-- A sample deploy-account transaction hash hint. -/
def sampleHash : TransactionHash := TransactionHash.mk 9

/-- A concrete transport for the batcher client: every operation kind is
answered with its matching response variant, except `ValidateBlock`
(answered with an application-level `BatcherError`) and `StartHeight`
(failed at the transport with a `ClientError`). -/
def sampleSend : BatcherSend := fun request =>
  match request with
  | BatcherRequest.ProposeBlock _ =>
    Except.ok (BatcherResponse.ProposeBlock (Except.ok ()))
  | BatcherRequest.GetProposalContent _ =>
    Except.ok (BatcherResponse.GetProposalContent
      (Except.ok (GetProposalContentResponse.mk 21)))
  | BatcherRequest.ValidateBlock _ =>
    Except.ok (BatcherResponse.ValidateBlock
      (Except.error (BatcherError.mk 7)))
  | BatcherRequest.SendProposalContent _ =>
    Except.ok (BatcherResponse.SendProposalContent
      (Except.ok (SendProposalContentResponse.mk 22)))
  | BatcherRequest.StartHeight _ =>
    Except.error (ClientError.communicationFailure 3)
  | BatcherRequest.GetCurrentHeight =>
    Except.ok (BatcherResponse.GetCurrentHeight
      (Except.ok (GetHeightResponse.mk 23)))
  | BatcherRequest.DecisionReached _ =>
    Except.ok (BatcherResponse.DecisionReached
      (Except.ok (DecisionReachedResponse.mk 24)))
  | BatcherRequest.AddSyncBlock _ =>
    Except.ok (BatcherResponse.AddSyncBlock (Except.ok ()))

/-! ## Theorems -/

/-- Claim C1: `skip_validate_due_to_unprocessed_deploy_account` returns
true if and only if all three conditions hold: the deploy-account hint
is present and the current on-chain nonce read for the sender is 0, the
transaction's own nonce is at least 1, and the transaction's nonce is at
most the configured `max_nonce_for_validation_skip`; when the conditions
fail it returns false.  (The claim's concrete examples are evaluated in
the witness.) -/
theorem skip_validate_characterization {σ ε ρ κ : Type}
    (ops : TransactionExecutorOps σ ε ρ κ) (st : σ)
    (max_nonce_for_validation_skip : Nonce)
    (account_tx_context : AccountTransactionContext)
    (deploy_account_tx_hash : Option TransactionHash) (n : Nonce)
    (h : ops.get_nonce_at st account_tx_context.sender_address =
      Except.ok n) :
    ((deploy_account_tx_hash.isSome = true ∧ n = Nonce.mk 0 ∧
        Nonce.mk 1 ≤ account_tx_context.nonce ∧
        account_tx_context.nonce ≤ max_nonce_for_validation_skip) →
      skip_validate_due_to_unprocessed_deploy_account ops st
        max_nonce_for_validation_skip account_tx_context
        deploy_account_tx_hash = Except.ok true)
    ∧ (¬ (deploy_account_tx_hash.isSome = true ∧ n = Nonce.mk 0 ∧
        Nonce.mk 1 ≤ account_tx_context.nonce ∧
        account_tx_context.nonce ≤ max_nonce_for_validation_skip) →
      skip_validate_due_to_unprocessed_deploy_account ops st
        max_nonce_for_validation_skip account_tx_context
        deploy_account_tx_hash = Except.ok false) := by
  have hres : skip_validate_due_to_unprocessed_deploy_account ops st
      max_nonce_for_validation_skip account_tx_context
      deploy_account_tx_hash =
      Except.ok (deploy_account_tx_hash.isSome &&
        decide (n = Nonce.mk 0) &&
        (decide (Nonce.mk 1 ≤ account_tx_context.nonce) &&
          decide (account_tx_context.nonce ≤
            max_nonce_for_validation_skip))) := by
    simp only [skip_validate_due_to_unprocessed_deploy_account, h,
      Bool.and_assoc]
  constructor
  · rintro ⟨h1, h2, h3, h4⟩
    rw [hres, h1]
    simp [h2, h3, h4]
  · intro hc
    rw [hres]
    have hfalse : (deploy_account_tx_hash.isSome &&
        decide (n = Nonce.mk 0) &&
        (decide (Nonce.mk 1 ≤ account_tx_context.nonce) &&
          decide (account_tx_context.nonce ≤
            max_nonce_for_validation_skip))) = false := by
      by_contra hb
      rw [Bool.not_eq_false] at hb
      simp only [Bool.and_eq_true, decide_eq_true_eq] at hb
      exact hc ⟨hb.1.1, hb.1.2, hb.2.1, hb.2.2⟩
    rw [hfalse]

/-- Claim C1 witness: with on-chain nonce 0, hint present, transaction
nonce 1 and threshold 3 the heuristic returns true; with transaction
nonce 4 it returns false; with no hint it returns false. -/
theorem skip_validate_characterization_witness :
    skip_validate_due_to_unprocessed_deploy_account exOpsBase 0
      (Nonce.mk 3) (sampleCtx 1) (some sampleHash) = Except.ok true
    ∧ skip_validate_due_to_unprocessed_deploy_account exOpsBase 0
      (Nonce.mk 3) (sampleCtx 4) (some sampleHash) = Except.ok false
    ∧ skip_validate_due_to_unprocessed_deploy_account exOpsBase 0
      (Nonce.mk 3) (sampleCtx 1) none = Except.ok false := by
  refine ⟨?_, ?_, ?_⟩
  · exact (skip_validate_characterization exOpsBase 0 (Nonce.mk 3)
      (sampleCtx 1) (some sampleHash) (Nonce.mk 0) rfl).1 (by decide)
  · exact (skip_validate_characterization exOpsBase 0 (Nonce.mk 3)
      (sampleCtx 4) (some sampleHash) (Nonce.mk 0) rfl).2 (by decide)
  · exact (skip_validate_characterization exOpsBase 0 (Nonce.mk 3)
      (sampleCtx 1) none (Nonce.mk 0) rfl).2 (by decide)

/-- Claim C2: for a non-DeployAccount account transaction,
`perform_validations` computes the skip decision first (the skip check
is the first stage invoked, before pre-validation), invokes the
pre-validation stage whenever the skip check returns (even when the
decision is to skip), and when the decision is to skip and
pre-validation succeeds it returns Ok having invoked neither the
validate call nor the post-validation stage. -/
theorem perform_validations_non_deploy_account {σ ε ρ κ : Type}
    (ops : TransactionExecutorOps σ ε ρ κ)
    (max_nonce_for_validation_skip : Nonce) (st : σ)
    (account_tx : AccountTransaction)
    (deploy_account_tx_hash : Option TransactionHash)
    (hk : account_tx.kind ≠ AccountTransactionKind.DeployAccount) :
    ((perform_validations ops max_nonce_for_validation_skip st account_tx
        deploy_account_tx_hash).2.head? =
      some ValidationStage.deployAccountSkipCheck)
    ∧ (∀ skip_validate,
        skip_validate_due_to_unprocessed_deploy_account ops st
          max_nonce_for_validation_skip account_tx.account_tx_context
          deploy_account_tx_hash = Except.ok skip_validate →
        ValidationStage.preValidationStage ∈
          (perform_validations ops max_nonce_for_validation_skip st
            account_tx deploy_account_tx_hash).2)
    ∧ (∀ st1,
        skip_validate_due_to_unprocessed_deploy_account ops st
          max_nonce_for_validation_skip account_tx.account_tx_context
          deploy_account_tx_hash = Except.ok true →
        PyValidator.perform_pre_validation_stage ops st account_tx =
          Except.ok st1 →
        perform_validations ops max_nonce_for_validation_skip st
          account_tx deploy_account_tx_hash =
          (Except.ok (),
            [ValidationStage.deployAccountSkipCheck,
             ValidationStage.preValidationStage])) := by
  refine ⟨?_, ?_, ?_⟩
  · simp only [perform_validations, if_neg hk]
    cases hs : skip_validate_due_to_unprocessed_deploy_account ops st
        max_nonce_for_validation_skip account_tx.account_tx_context
        deploy_account_tx_hash with
    | error e => rfl
    | ok skip_validate =>
      cases hp : PyValidator.perform_pre_validation_stage ops st
          account_tx with
      | error e => rfl
      | ok st1 =>
        cases skip_validate with
        | false =>
          cases hv : ops.validate st1 account_tx ops.initial_gas with
          | error e => simp [hv]
          | ok res =>
            obtain ⟨st2c, cost⟩ := res
            cases hpost : ops.perform_post_validation_stage
                account_tx.account_tx_context cost with
            | error e2 => simp [hv, hpost]
            | ok u => simp [hv, hpost]
        | true => simp
  · intro skip_validate hs
    simp only [perform_validations, if_neg hk, hs]
    cases hp : PyValidator.perform_pre_validation_stage ops st
        account_tx with
    | error e => simp
    | ok st1 =>
      cases skip_validate with
      | false =>
        cases hv : ops.validate st1 account_tx ops.initial_gas with
        | error e => simp [hv]
        | ok res =>
          obtain ⟨st2c, cost⟩ := res
          cases hpost : ops.perform_post_validation_stage
              account_tx.account_tx_context cost with
          | error e2 => simp [hv, hpost]
          | ok u => simp [hv, hpost]
      | true => simp
  · intro st1 hs hp
    simp [perform_validations, if_neg hk, hs, hp]

/-- Claim C2 witness: a skip-eligible invoke transaction (on-chain nonce
0, hint present, transaction nonce 1, threshold 1): the trace starts
with the skip check, and the run returns Ok with exactly the skip check
and the pre-validation stage invoked. -/
theorem perform_validations_non_deploy_account_witness :
    ((perform_validations exOpsBase (Nonce.mk 1) 0 (sampleInvokeTx 1)
        (some sampleHash)).2.head? =
      some ValidationStage.deployAccountSkipCheck)
    ∧ perform_validations exOpsBase (Nonce.mk 1) 0 (sampleInvokeTx 1)
        (some sampleHash) =
      (Except.ok (),
        [ValidationStage.deployAccountSkipCheck,
         ValidationStage.preValidationStage]) := by
  have h := perform_validations_non_deploy_account exOpsBase (Nonce.mk 1)
    0 (sampleInvokeTx 1) (some sampleHash) (by decide)
  exact ⟨h.1, h.2.2 1 rfl rfl⟩

/-- Claim C3: for a DeployAccount transaction, `perform_validations`
invokes full execution and nothing else (in particular neither the
validate call nor post-validation), and returns Ok when execution
succeeds. -/
theorem perform_validations_deploy_account_substitution {σ ε ρ κ : Type}
    (ops : TransactionExecutorOps σ ε ρ κ)
    (max_nonce_for_validation_skip : Nonce) (st : σ)
    (account_tx : AccountTransaction)
    (deploy_account_tx_hash : Option TransactionHash)
    (hk : account_tx.kind = AccountTransactionKind.DeployAccount) :
    ((perform_validations ops max_nonce_for_validation_skip st account_tx
        deploy_account_tx_hash).2 = [ValidationStage.executeStage])
    ∧ (∀ res, ops.execute st account_tx = Except.ok res →
        (perform_validations ops max_nonce_for_validation_skip st
          account_tx deploy_account_tx_hash).1 = Except.ok ()) := by
  constructor
  · simp only [perform_validations, if_pos hk]
    cases hx : ops.execute st account_tx with
    | error e => rfl
    | ok res => rfl
  · intro res hx
    simp [perform_validations, if_pos hk, hx]

/-- Claim C3 witness: a concrete DeployAccount transaction is fully
executed (the trace is exactly the execute stage) and the run
returns Ok. -/
theorem perform_validations_deploy_account_witness :
    ((perform_validations exOpsBase (Nonce.mk 1) 0 sampleDeployAccountTx
        none).2 = [ValidationStage.executeStage])
    ∧ (perform_validations exOpsBase (Nonce.mk 1) 0 sampleDeployAccountTx
        none).1 = Except.ok () := by
  have h := perform_validations_deploy_account_substitution exOpsBase
    (Nonce.mk 1) 0 sampleDeployAccountTx none rfl
  exact ⟨h.1, h.2 (0, ()) rfl⟩

/-- Claim C4: the validator lifecycle keeps at most one live execution
context: `setup_validation_context` called while a context is live
fails with a hard assertion failure (not a recoverable error), and
`teardown_validation_context` / `close` always transition to the
Uninitialized state and are idempotent — safe to call any number of
times in a row, including when already Uninitialized. -/
theorem validator_lifecycle_invariant {ε τ : Type}
    (executor_new : Except ε τ) (v : PyValidatorLifecycle τ) :
    (v.tx_executor.isSome = true →
      setup_validation_context executor_new v =
        SetupOutcome.assertionFailure)
    ∧ (teardown_validation_context v).tx_executor = none
    ∧ teardown_validation_context (teardown_validation_context v) =
        teardown_validation_context v
    ∧ close v = teardown_validation_context v
    ∧ close (close v) = close v := by
  refine ⟨?_, rfl, rfl, rfl, rfl⟩
  intro h
  cases hv : v.tx_executor with
  | none => rw [hv] at h; cases h
  | some ex => simp [setup_validation_context, hv]

/-- Claim C4 witness: a live validator (an executor is present) rejects
setup with an assertion failure, and teardown / close at concrete states
are idempotent and land on Uninitialized. -/
theorem validator_lifecycle_witness :
    setup_validation_context (Except.ok 2 : Except Nat Nat)
      (PyValidatorLifecycle.mk (some 1)) = SetupOutcome.assertionFailure
    ∧ (teardown_validation_context
        (PyValidatorLifecycle.mk (some (1 : Nat)))).tx_executor = none
    ∧ teardown_validation_context (teardown_validation_context
        (PyValidatorLifecycle.mk (some (1 : Nat)))) =
      teardown_validation_context (PyValidatorLifecycle.mk (some 1))
    ∧ close (close (PyValidatorLifecycle.mk (none : Option Nat))) =
      close (PyValidatorLifecycle.mk none) := by
  have h := validator_lifecycle_invariant (Except.ok 2 : Except Nat Nat)
    (PyValidatorLifecycle.mk (some 1))
  have h2 := validator_lifecycle_invariant (Except.ok 2 : Except Nat Nat)
    (PyValidatorLifecycle.mk (none : Option Nat))
  exact ⟨h.1 rfl, h.2.1, h.2.2.1, h2.2.2.2.2⟩

/-- Claim C8: when any stage of `perform_validations` fails
(deploy-account execution, the skip-heuristic state read, the
pre-validation stage, the validate call, or the post-validation stage),
`perform_validations` returns that first failing stage's error
unchanged, with no retry and no later stage invoked (the trace ends at
the failing stage). -/
theorem perform_validations_error_propagation {σ ε ρ κ : Type}
    (ops : TransactionExecutorOps σ ε ρ κ)
    (max_nonce_for_validation_skip : Nonce) (st : σ)
    (account_tx : AccountTransaction)
    (deploy_account_tx_hash : Option TransactionHash) :
    (∀ e, account_tx.kind = AccountTransactionKind.DeployAccount →
      ops.execute st account_tx = Except.error e →
      perform_validations ops max_nonce_for_validation_skip st account_tx
        deploy_account_tx_hash =
        (Except.error e, [ValidationStage.executeStage]))
    ∧ (∀ e, account_tx.kind ≠ AccountTransactionKind.DeployAccount →
      skip_validate_due_to_unprocessed_deploy_account ops st
        max_nonce_for_validation_skip account_tx.account_tx_context
        deploy_account_tx_hash = Except.error e →
      perform_validations ops max_nonce_for_validation_skip st account_tx
        deploy_account_tx_hash =
        (Except.error e, [ValidationStage.deployAccountSkipCheck]))
    ∧ (∀ e skip_validate,
      account_tx.kind ≠ AccountTransactionKind.DeployAccount →
      skip_validate_due_to_unprocessed_deploy_account ops st
        max_nonce_for_validation_skip account_tx.account_tx_context
        deploy_account_tx_hash = Except.ok skip_validate →
      PyValidator.perform_pre_validation_stage ops st account_tx =
        Except.error e →
      perform_validations ops max_nonce_for_validation_skip st account_tx
        deploy_account_tx_hash =
        (Except.error e,
          [ValidationStage.deployAccountSkipCheck,
           ValidationStage.preValidationStage]))
    ∧ (∀ e st1,
      account_tx.kind ≠ AccountTransactionKind.DeployAccount →
      skip_validate_due_to_unprocessed_deploy_account ops st
        max_nonce_for_validation_skip account_tx.account_tx_context
        deploy_account_tx_hash = Except.ok false →
      PyValidator.perform_pre_validation_stage ops st account_tx =
        Except.ok st1 →
      ops.validate st1 account_tx ops.initial_gas = Except.error e →
      perform_validations ops max_nonce_for_validation_skip st account_tx
        deploy_account_tx_hash =
        (Except.error e,
          [ValidationStage.deployAccountSkipCheck,
           ValidationStage.preValidationStage,
           ValidationStage.validateCallStage]))
    ∧ (∀ e st1 st2 actual_cost,
      account_tx.kind ≠ AccountTransactionKind.DeployAccount →
      skip_validate_due_to_unprocessed_deploy_account ops st
        max_nonce_for_validation_skip account_tx.account_tx_context
        deploy_account_tx_hash = Except.ok false →
      PyValidator.perform_pre_validation_stage ops st account_tx =
        Except.ok st1 →
      ops.validate st1 account_tx ops.initial_gas =
        Except.ok (st2, actual_cost) →
      ops.perform_post_validation_stage account_tx.account_tx_context
        actual_cost = Except.error e →
      perform_validations ops max_nonce_for_validation_skip st account_tx
        deploy_account_tx_hash =
        (Except.error e,
          [ValidationStage.deployAccountSkipCheck,
           ValidationStage.preValidationStage,
           ValidationStage.validateCallStage,
           ValidationStage.postValidationStage])) := by
  refine ⟨?_, ?_, ?_, ?_, ?_⟩
  · intro e hk hx
    simp [perform_validations, if_pos hk, hx]
  · intro e hk hs
    simp [perform_validations, if_neg hk, hs]
  · intro e skip_validate hk hs hp
    simp [perform_validations, if_neg hk, hs, hp]
  · intro e st1 hk hs hp hv
    simp [perform_validations, if_neg hk, hs, hp, hv]
  · intro e st1 st2 actual_cost hk hs hp hv hpost
    simp [perform_validations, if_neg hk, hs, hp, hv, hpost]

/-- Claim C8 witness: each stage made to fail in turn on concrete
executors: the run returns exactly that stage's error and the trace
stops at the failing stage. -/
theorem perform_validations_error_propagation_witness :
    perform_validations exOpsExecFail (Nonce.mk 1) 0 sampleDeployAccountTx
      none = (Except.error 10, [ValidationStage.executeStage])
    ∧ perform_validations exOpsNonceFail (Nonce.mk 1) 0 (sampleInvokeTx 1)
      none = (Except.error 11, [ValidationStage.deployAccountSkipCheck])
    ∧ perform_validations exOpsPreFail (Nonce.mk 1) 0 (sampleInvokeTx 1)
      none =
      (Except.error 12,
        [ValidationStage.deployAccountSkipCheck,
         ValidationStage.preValidationStage])
    ∧ perform_validations exOpsValFail (Nonce.mk 1) 0 (sampleInvokeTx 1)
      none =
      (Except.error 13,
        [ValidationStage.deployAccountSkipCheck,
         ValidationStage.preValidationStage,
         ValidationStage.validateCallStage])
    ∧ perform_validations exOpsPostFail (Nonce.mk 1) 0 (sampleInvokeTx 1)
      none =
      (Except.error 14,
        [ValidationStage.deployAccountSkipCheck,
         ValidationStage.preValidationStage,
         ValidationStage.validateCallStage,
         ValidationStage.postValidationStage]) := by
  refine ⟨?_, ?_, ?_, ?_, ?_⟩
  · exact (perform_validations_error_propagation exOpsExecFail
      (Nonce.mk 1) 0 sampleDeployAccountTx none).1 10 rfl rfl
  · exact (perform_validations_error_propagation exOpsNonceFail
      (Nonce.mk 1) 0 (sampleInvokeTx 1) none).2.1 11 (by decide) rfl
  · exact (perform_validations_error_propagation exOpsPreFail
      (Nonce.mk 1) 0 (sampleInvokeTx 1) none).2.2.1 12 false (by decide)
      rfl rfl
  · exact (perform_validations_error_propagation exOpsValFail
      (Nonce.mk 1) 0 (sampleInvokeTx 1) none).2.2.2.1 13 1 (by decide)
      rfl rfl rfl
  · exact (perform_validations_error_propagation exOpsPostFail
      (Nonce.mk 1) 0 (sampleInvokeTx 1) none).2.2.2.2 14 1 1 ()
      (by decide) rfl rfl rfl rfl

/-- Claim C10: a `PyValidator` built by `create_for_testing` stores
`max_recursion_depth = 50` and `max_nonce_for_validation_skip =
Nonce(1)` regardless of the `max_recursion_depth` argument passed; the
argument is forwarded only to the transaction-executor constructor. -/
theorem create_for_testing_stores_constants {γ ρr β ε τ : Type}
    (executor_new : ρr → γ → β → Nat → Except ε τ) (general_config : γ)
    (state_reader_proxy : ρr) (next_block_info : β)
    (max_recursion_depth : Nat) (ex : τ)
    (h : executor_new state_reader_proxy general_config next_block_info
      max_recursion_depth = Except.ok ex) :
    create_for_testing executor_new general_config state_reader_proxy
      next_block_info max_recursion_depth =
      Except.ok (PyValidatorStruct.mk general_config 50 (Nonce.mk 1) ex) := by
  simp [create_for_testing, h]

/-- Claim C10 witness: with an executor constructor that returns the
depth it was given, `create_for_testing` called with depth 7 forwards 7
to the executor yet stores depth 50 and skip-nonce 1. -/
theorem create_for_testing_witness :
    create_for_testing
      (fun (_ : Nat) (_ : Nat) (_ : Nat) (d : Nat) =>
        (Except.ok d : Except Nat Nat)) 3 4 5 7 =
      Except.ok (PyValidatorStruct.mk 3 50 (Nonce.mk 1) 7) :=
  create_for_testing_stores_constants
    (fun (_ : Nat) (_ : Nat) (_ : Nat) (d : Nat) =>
      (Except.ok d : Except Nat Nat)) 3 4 5 7 7 rfl

/-- Claim C5: for Declare, DeployAccount and Invoke transactions,
`max_fee()` returns none exactly when the variant is V3, and returns
the stored fee for every non-V3 variant that carries a fee model
(Declare V0/V1/V2, DeployAccount V1, Invoke V0/V1). -/
theorem max_fee_none_iff_v3 :
    (∀ t : DeclareTransaction,
      t.max_fee = none ↔ t.version = TransactionVersion.mk 3)
    ∧ (∀ t : DeployAccountTransaction,
      t.max_fee = none ↔ t.version = TransactionVersion.mk 3)
    ∧ (∀ t : InvokeTransaction,
      t.max_fee = none ↔ t.version = TransactionVersion.mk 3)
    ∧ (∀ a, (DeclareTransaction.V0 a).max_fee =
        some a.account_params.max_fee)
    ∧ (∀ a, (DeclareTransaction.V1 a).max_fee =
        some a.account_params.max_fee)
    ∧ (∀ a, (DeclareTransaction.V2 a).max_fee =
        some a.account_params.max_fee)
    ∧ (∀ a, (DeployAccountTransaction.V1 a).max_fee =
        some a.account_params.max_fee)
    ∧ (∀ a, (InvokeTransaction.V0 a).max_fee = some a.max_fee)
    ∧ (∀ a, (InvokeTransaction.V1 a).max_fee =
        some a.account_params.max_fee) := by
  refine ⟨?_, ?_, ?_, fun a => rfl, fun a => rfl, fun a => rfl,
    fun a => rfl, fun a => rfl, fun a => rfl⟩
  · intro t
    cases t <;>
      simp [DeclareTransaction.max_fee, DeclareTransaction.version,
        TransactionVersion.mk.injEq]
  · intro t
    cases t <;>
      simp [DeployAccountTransaction.max_fee,
        DeployAccountTransaction.version, TransactionVersion.mk.injEq]
  · intro t
    cases t <;>
      simp [InvokeTransaction.max_fee, InvokeTransaction.version,
        TransactionVersion.mk.injEq]

/-- Claim C6: `nonce()` returns none exactly for the nonce-less
variants Invoke V0, Deploy and L1Handler, and every other
Declare / DeployAccount / Invoke variant returns its stored nonce
(every variant is matched). -/
theorem transaction_nonce_characterization :
    (∀ t : Transaction, Transaction.nonce t = none ↔
      ((∃ v0, t = Transaction.Invoke (InvokeTransaction.V0 v0)) ∨
       (∃ d, t = Transaction.Deploy d) ∨
       (∃ l, t = Transaction.L1Handler l)))
    ∧ (∀ d : DeclareTransaction,
      Transaction.nonce (Transaction.Declare d) = some d.nonce)
    ∧ (∀ d : DeployAccountTransaction,
      Transaction.nonce (Transaction.DeployAccount d) = some d.nonce)
    ∧ (∀ a, (DeclareTransaction.V0 a).nonce = a.account_params.nonce)
    ∧ (∀ a, (DeclareTransaction.V1 a).nonce = a.account_params.nonce)
    ∧ (∀ a, (DeclareTransaction.V2 a).nonce = a.account_params.nonce)
    ∧ (∀ a, (DeclareTransaction.V3 a).nonce = a.transaction_params.nonce)
    ∧ (∀ a, (DeployAccountTransaction.V1 a).nonce =
        a.account_params.nonce)
    ∧ (∀ a, (DeployAccountTransaction.V3 a).nonce =
        a.transaction_params.nonce)
    ∧ (∀ a, (InvokeTransaction.V1 a).nonce =
        some a.account_params.nonce)
    ∧ (∀ a, (InvokeTransaction.V3 a).nonce =
        some a.transaction_params.nonce) := by
  refine ⟨?_, fun d => rfl, fun d => rfl, fun a => rfl, fun a => rfl,
    fun a => rfl, fun a => rfl, fun a => rfl, fun a => rfl, fun a => rfl,
    fun a => rfl⟩
  intro t
  cases t with
  | Declare d => simp [Transaction.nonce]
  | Deploy d => simp [Transaction.nonce]
  | DeployAccount d => simp [Transaction.nonce]
  | Invoke i => cases i <;> simp [Transaction.nonce, InvokeTransaction.nonce]
  | L1Handler l => simp [Transaction.nonce]

/-- Claim C7 counterexample: two Deploy transactions with the same
variant tag but different stored version values — the version of a
`DeployTransaction` is a stored field of the transaction data, not a
value derived from the variant tag, so the claim as stated fails. -/
theorem deploy_version_stored_counterexample :
    (DeployTransaction.mk (TransactionVersion.mk 0) (ClassHash.mk 0)
      (ContractAddressSalt.mk 0) (Calldata.mk [])).version ≠
    (DeployTransaction.mk (TransactionVersion.mk 1) (ClassHash.mk 0)
      (ContractAddressSalt.mk 0) (Calldata.mk [])).version := by
  decide

/-- Claim C7 (amended): for the versioned Declare, DeployAccount and
Invoke unions, `version()` is derived purely from the variant tag
(V0 to 0, V1 to 1, V2 to 2, V3 to 3) and no version field is stored;
the Deploy and L1Handler transactions instead store the version as an
explicit field, which their accessor returns unchanged. -/
theorem version_derived_from_tag_amended :
    (∀ a, (DeclareTransaction.V0 a).version = TransactionVersion.mk 0)
    ∧ (∀ a, (DeclareTransaction.V1 a).version = TransactionVersion.mk 1)
    ∧ (∀ a, (DeclareTransaction.V2 a).version = TransactionVersion.mk 2)
    ∧ (∀ a, (DeclareTransaction.V3 a).version = TransactionVersion.mk 3)
    ∧ (∀ a, (DeployAccountTransaction.V1 a).version =
        TransactionVersion.mk 1)
    ∧ (∀ a, (DeployAccountTransaction.V3 a).version =
        TransactionVersion.mk 3)
    ∧ (∀ a, (InvokeTransaction.V0 a).version = TransactionVersion.mk 0)
    ∧ (∀ a, (InvokeTransaction.V1 a).version = TransactionVersion.mk 1)
    ∧ (∀ a, (InvokeTransaction.V3 a).version = TransactionVersion.mk 3)
    ∧ (∀ (ver : TransactionVersion) (ch : ClassHash)
        (salt : ContractAddressSalt) (cd : Calldata),
        (DeployTransaction.mk ver ch salt cd).version = ver)
    ∧ (∀ (ver : TransactionVersion) (n : Nonce) (ca : ContractAddress)
        (eps : EntryPointSelector) (cd : Calldata),
        (L1HandlerTransaction.mk ver n ca eps cd).version = ver) :=
  ⟨fun _ => rfl, fun _ => rfl, fun _ => rfl, fun _ => rfl, fun _ => rfl,
   fun _ => rfl, fun _ => rfl, fun _ => rfl, fun _ => rfl,
   fun _ _ _ _ => rfl, fun _ _ _ _ _ => rfl⟩

/-- Claim C9: every batcher client operation sends exactly the
`BatcherRequest` variant tagged with its operation kind (its result
depends on the transport only at that request), and returns either the
typed success payload of the matching `BatcherResponse` variant or an
error, with transport failures (`ClientError`) and application-level
failures (`BatcherError`) surfaced as distinct variants of
`BatcherClientError`. -/
theorem batcher_client_contract (send : BatcherSend) :
    (∀ input : ProposeBlockInput,
      (∀ ce, send (BatcherRequest.ProposeBlock input) = Except.error ce →
        propose_block send input =
          Except.error (BatcherClientError.ClientError ce))
      ∧ (∀ r, send (BatcherRequest.ProposeBlock input) =
          Except.ok (BatcherResponse.ProposeBlock (Except.ok r)) →
        propose_block send input = Except.ok r)
      ∧ (∀ be, send (BatcherRequest.ProposeBlock input) =
          Except.ok (BatcherResponse.ProposeBlock (Except.error be)) →
        propose_block send input =
          Except.error (BatcherClientError.BatcherError be))
      ∧ (∀ send2 : BatcherSend,
        send (BatcherRequest.ProposeBlock input) =
          send2 (BatcherRequest.ProposeBlock input) →
        propose_block send input = propose_block send2 input))
    ∧ (∀ input : GetProposalContentInput,
      (∀ ce, send (BatcherRequest.GetProposalContent input) =
          Except.error ce →
        get_proposal_content send input =
          Except.error (BatcherClientError.ClientError ce))
      ∧ (∀ r, send (BatcherRequest.GetProposalContent input) =
          Except.ok (BatcherResponse.GetProposalContent (Except.ok r)) →
        get_proposal_content send input = Except.ok r)
      ∧ (∀ be, send (BatcherRequest.GetProposalContent input) =
          Except.ok (BatcherResponse.GetProposalContent
            (Except.error be)) →
        get_proposal_content send input =
          Except.error (BatcherClientError.BatcherError be))
      ∧ (∀ send2 : BatcherSend,
        send (BatcherRequest.GetProposalContent input) =
          send2 (BatcherRequest.GetProposalContent input) →
        get_proposal_content send input = get_proposal_content send2 input))
    ∧ (∀ input : ValidateBlockInput,
      (∀ ce, send (BatcherRequest.ValidateBlock input) = Except.error ce →
        validate_block send input =
          Except.error (BatcherClientError.ClientError ce))
      ∧ (∀ r, send (BatcherRequest.ValidateBlock input) =
          Except.ok (BatcherResponse.ValidateBlock (Except.ok r)) →
        validate_block send input = Except.ok r)
      ∧ (∀ be, send (BatcherRequest.ValidateBlock input) =
          Except.ok (BatcherResponse.ValidateBlock (Except.error be)) →
        validate_block send input =
          Except.error (BatcherClientError.BatcherError be))
      ∧ (∀ send2 : BatcherSend,
        send (BatcherRequest.ValidateBlock input) =
          send2 (BatcherRequest.ValidateBlock input) →
        validate_block send input = validate_block send2 input))
    ∧ (∀ input : SendProposalContentInput,
      (∀ ce, send (BatcherRequest.SendProposalContent input) =
          Except.error ce →
        send_proposal_content send input =
          Except.error (BatcherClientError.ClientError ce))
      ∧ (∀ r, send (BatcherRequest.SendProposalContent input) =
          Except.ok (BatcherResponse.SendProposalContent (Except.ok r)) →
        send_proposal_content send input = Except.ok r)
      ∧ (∀ be, send (BatcherRequest.SendProposalContent input) =
          Except.ok (BatcherResponse.SendProposalContent
            (Except.error be)) →
        send_proposal_content send input =
          Except.error (BatcherClientError.BatcherError be))
      ∧ (∀ send2 : BatcherSend,
        send (BatcherRequest.SendProposalContent input) =
          send2 (BatcherRequest.SendProposalContent input) →
        send_proposal_content send input =
          send_proposal_content send2 input))
    ∧ (∀ input : StartHeightInput,
      (∀ ce, send (BatcherRequest.StartHeight input) = Except.error ce →
        start_height send input =
          Except.error (BatcherClientError.ClientError ce))
      ∧ (∀ r, send (BatcherRequest.StartHeight input) =
          Except.ok (BatcherResponse.StartHeight (Except.ok r)) →
        start_height send input = Except.ok r)
      ∧ (∀ be, send (BatcherRequest.StartHeight input) =
          Except.ok (BatcherResponse.StartHeight (Except.error be)) →
        start_height send input =
          Except.error (BatcherClientError.BatcherError be))
      ∧ (∀ send2 : BatcherSend,
        send (BatcherRequest.StartHeight input) =
          send2 (BatcherRequest.StartHeight input) →
        start_height send input = start_height send2 input))
    ∧ ((∀ ce, send BatcherRequest.GetCurrentHeight = Except.error ce →
        get_height send =
          Except.error (BatcherClientError.ClientError ce))
      ∧ (∀ r, send BatcherRequest.GetCurrentHeight =
          Except.ok (BatcherResponse.GetCurrentHeight (Except.ok r)) →
        get_height send = Except.ok r)
      ∧ (∀ be, send BatcherRequest.GetCurrentHeight =
          Except.ok (BatcherResponse.GetCurrentHeight (Except.error be)) →
        get_height send =
          Except.error (BatcherClientError.BatcherError be))
      ∧ (∀ send2 : BatcherSend,
        send BatcherRequest.GetCurrentHeight =
          send2 BatcherRequest.GetCurrentHeight →
        get_height send = get_height send2))
    ∧ (∀ input : DecisionReachedInput,
      (∀ ce, send (BatcherRequest.DecisionReached input) =
          Except.error ce →
        decision_reached send input =
          Except.error (BatcherClientError.ClientError ce))
      ∧ (∀ r, send (BatcherRequest.DecisionReached input) =
          Except.ok (BatcherResponse.DecisionReached (Except.ok r)) →
        decision_reached send input = Except.ok r)
      ∧ (∀ be, send (BatcherRequest.DecisionReached input) =
          Except.ok (BatcherResponse.DecisionReached (Except.error be)) →
        decision_reached send input =
          Except.error (BatcherClientError.BatcherError be))
      ∧ (∀ send2 : BatcherSend,
        send (BatcherRequest.DecisionReached input) =
          send2 (BatcherRequest.DecisionReached input) →
        decision_reached send input = decision_reached send2 input))
    ∧ (∀ sync_block : SyncBlock,
      (∀ ce, send (BatcherRequest.AddSyncBlock sync_block) =
          Except.error ce →
        add_sync_block send sync_block =
          Except.error (BatcherClientError.ClientError ce))
      ∧ (∀ r, send (BatcherRequest.AddSyncBlock sync_block) =
          Except.ok (BatcherResponse.AddSyncBlock (Except.ok r)) →
        add_sync_block send sync_block = Except.ok r)
      ∧ (∀ be, send (BatcherRequest.AddSyncBlock sync_block) =
          Except.ok (BatcherResponse.AddSyncBlock (Except.error be)) →
        add_sync_block send sync_block =
          Except.error (BatcherClientError.BatcherError be))
      ∧ (∀ send2 : BatcherSend,
        send (BatcherRequest.AddSyncBlock sync_block) =
          send2 (BatcherRequest.AddSyncBlock sync_block) →
        add_sync_block send sync_block = add_sync_block send2 sync_block)) := by
  refine ⟨fun input => ?_, fun input => ?_, fun input => ?_,
    fun input => ?_, fun input => ?_, ?_, fun input => ?_,
    fun sync_block => ?_⟩ <;>
  refine ⟨fun ce h => ?_, fun r h => ?_, fun be h => ?_,
    fun send2 h => ?_⟩ <;>
  simp [propose_block, get_proposal_content, validate_block,
    send_proposal_content, start_height, get_height, decision_reached,
    add_sync_block, h]

/-- Claim C9 witness: against a concrete transport, each behaviour is
observed: a matching success payload is returned, an application-level
`BatcherError` surfaces as the `BatcherError` variant, and a transport
failure surfaces as the `ClientError` variant. -/
theorem batcher_client_contract_witness :
    propose_block sampleSend (ProposeBlockInput.mk 1) = Except.ok ()
    ∧ get_height sampleSend = Except.ok (GetHeightResponse.mk 23)
    ∧ validate_block sampleSend (ValidateBlockInput.mk 1) =
      Except.error (BatcherClientError.BatcherError (BatcherError.mk 7))
    ∧ start_height sampleSend (StartHeightInput.mk 1) =
      Except.error (BatcherClientError.ClientError
        (ClientError.communicationFailure 3)) := by
  have h := batcher_client_contract sampleSend
  exact ⟨(h.1 (ProposeBlockInput.mk 1)).2.1 () rfl,
    h.2.2.2.2.2.1.2.1 (GetHeightResponse.mk 23) rfl,
    (h.2.2.1 (ValidateBlockInput.mk 1)).2.2.1 (BatcherError.mk 7) rfl,
    (h.2.2.2.2.1 (StartHeightInput.mk 1)).1
      (ClientError.communicationFailure 3) rfl⟩
